import Mathlib

/-
Verification of the pgwatch3 Postgres metric sink (package `sinks`,
file with `PostgresWriter`) and of the schema bootstrapper
(`src/db/bootstrap.go`).

The Go code is shallowly embedded:
  * `time.Time` is modelled as `Int` (nanoseconds since the Unix epoch);
    the Go zero `time.Time` (January 1, year 1 UTC) is the distinguished
    value `goZeroTime`, which no `time.Unix(0, int64)` or `time.Now()`
    value can equal.
  * Go maps are modelled as association lists iterated in insertion
    order (`alookup` / `aupdate`).  None of the verified properties
    depends on the (randomised) relative iteration order of distinct
    keys of a Go map.
  * database round-trips (`Exec`, `QueryRow`, `Query`/`CollectOneRow`,
    `CopyFrom`) and `json.Marshal` are modelled as oracles bundled in
    `DbOracle`; the embedding records every store call it makes in a
    `WriteEffect` trace, in program order.
  * the `sinks` package-level mutable state (`forceRecreatePGMetricPartitions`,
    `partitionMapMetric`, `partitionMapMetricDbname`, the two atomic
    counters) is threaded explicitly as `WriteState`.
  * Go channel sends/receives are modelled by `GoChan` and
    `sendWouldBlock`, following the Go memory model: a send on a channel
    whose buffer is full (in particular any send on a capacity-0 channel)
    suspends the sender until a receiver is ready.
-/

namespace Pgwatch3

/-- Scalar value of a measurement data row field (Go `any`, as produced
by the SQL driver).  Values outside this grammar (e.g. floats that fail
JSON encoding) are handled through the marshalling oracles. -/
inductive GoValue
  | vnull
  | vint (i : Int)
  | vstr (s : String)
  | vbool (b : Bool)
  deriving DecidableEq

/-- Go `time.Time`, as nanoseconds since the Unix epoch. -/
abbrev GoTime := Int

/-- The Go zero `time.Time` (January 1, year 1 UTC) in Unix nanoseconds.
It is far outside the `int64` nanosecond range, so no value built by
`time.Unix(0, epochNs)` or `time.Now()` equals it. -/
def goZeroTime : GoTime := -62135596800000000000

/-- Go `t.IsZero()`. -/
def timeIsZero (t : GoTime) : Bool := decide (t = goZeroTime)

/-- Go `strings.Contains s pat`. -/
def strContains (s pat : String) : Bool :=
  s.data.tails.any (fun t => pat.data.isPrefixOf t)

/-- Lookup in an association list (Go map read `m[k]`). -/
def alookup {α : Type} : List (String × α) → String → Option α
  | [], _ => none
  | (k', v) :: rest, k => if k' = k then some v else alookup rest k

/-- Insert-or-replace in an association list (Go map write `m[k] = v`). -/
def aupdate {α : Type} : List (String × α) → String → α → List (String × α)
  | [], k, v => [(k, v)]
  | (k', v') :: rest, k, v =>
    if k' = k then (k, v) :: rest else (k', v') :: aupdate rest k v

/-- Source struct `ExistingPartitionInfo`. -/
structure ExistingPartitionInfo where
  StartTime : GoTime
  EndTime : GoTime
  deriving DecidableEq

/-- Zero value of `ExistingPartitionInfo` (two zero `time.Time`s). -/
def zeroPartInfo : ExistingPartitionInfo := ⟨goZeroTime, goZeroTime⟩

/-- Source struct `metrics.MeasurementMessage` (the fields the sink reads). -/
structure MeasurementMessage where
  DBName : String
  MetricName : String
  CustomTags : List (String × String)
  Data : List (List (String × GoValue))
  deriving DecidableEq

/-- Source struct `MeasurementMessagePostgres`. -/
structure MeasurementMessagePostgres where
  Time : GoTime
  DBName : String
  Metric : String
  Data : List (String × GoValue)
  TagData : List (String × String)
  deriving DecidableEq

/-- Source type `DbStorageSchemaType`. -/
inductive DbStorageSchemaType
  | postgres
  | timescale
  deriving DecidableEq

/-- Source constant `epochColumnName`. -/
def epochColumnName : String := "epoch_ns"

/-- Source constant `tagPrefix` (`"tag_"`). -/
def tagPref : String := "tag_"

/-- Suffix tested by the timescale ensure paths. -/
def realtimeSuffix : String := "_realtime"

/-- Substring the copy engine looks for in copy errors. -/
def noPartitionNeedle : String := "no partition"

/-- Source constant `cacheLimit`. -/
def cacheLimit : Nat := 512

/-- Go `fmt.Sprintf("%v", v)` on the supported scalar values. -/
def goFormatValue : GoValue → String
  | .vnull => "<nil>"
  | .vint i => toString i
  | .vstr s => s
  | .vbool b => if b then "true" else "false"

/-- Result of scanning one data row inside `write` (lines 192-229):
the extracted `epoch_ns`, the tag map and the field map. -/
structure ParsedRow where
  epochNs : Int
  tags : List (String × String)
  fields : List (String × GoValue)
  deriving DecidableEq

/-- The field loop of `write` (source lines 207-219).  The Go code runs
`epochNs = v.(int64)` — an unchecked type assertion that panics when the
non-nil, non-empty value under `epoch_ns` is not an `int64`; the total
embedding returns `.error` exactly there. -/
def parseFields : List (String × GoValue) → ParsedRow → Except String ParsedRow
  | [], acc => .ok acc
  | (k, v) :: rest, acc =>
    if v = GoValue.vnull ∨ v = GoValue.vstr ("") then parseFields rest acc
    else if k = epochColumnName then
      match v with
      | .vint i => parseFields rest { acc with epochNs := i }
      | _ => .error ("panic: interface conversion: epoch_ns value is not int64")
    else if tagPref.isPrefixOf k then
      parseFields rest { acc with tags := aupdate acc.tags (k.drop 4) (goFormatValue v) }
    else
      parseFields rest { acc with fields := aupdate acc.fields k v }

/-- Tag/field extraction for one data row: custom tags are stringified
first (source lines 201-205), then the row fields are scanned. -/
def parseDataRow (customTags : List (String × String))
    (row : List (String × GoValue)) : Except String ParsedRow :=
  parseFields row
    { epochNs := 0
      tags := customTags.foldl (fun m kv => aupdate m kv.1 kv.2) []
      fields := [] }

/-- Accumulator of the batching pass of `write` (lines 179-184). -/
structure Phase1Out where
  perMetric : List (String × List MeasurementMessagePostgres)
  pgPartBounds : List (String × ExistingPartitionInfo)
  pgPartBoundsDbName : List (String × List (String × ExistingPartitionInfo))
  rowsBatched : Nat
  totalRows : Nat
  deriving DecidableEq

/-- Partition-bound update for one observed timestamp (source lines
248-256 and 262-270): on a missing key both branches fire; otherwise
the envelope is widened. -/
def updBounds (m : List (String × ExistingPartitionInfo)) (k : String)
    (t : GoTime) : List (String × ExistingPartitionInfo) :=
  match alookup m k with
  | none => aupdate m k ⟨t, t⟩
  | some b =>
    let b1 := if decide (t < b.StartTime) then { b with StartTime := t } else b
    let b2 := if decide (t > b1.EndTime) then { b1 with EndTime := t } else b1
    aupdate m k b2

/-- Pure part of one row of the batching pass, after a successful parse
(source lines 221-271). -/
def phase1RowOk (schema : DbStorageSchemaType) (now : GoTime)
    (msg : MeasurementMessage) (acc : Phase1Out) (pr : ParsedRow) : Phase1Out :=
  let epochTime : GoTime := if pr.epochNs = 0 then now else pr.epochNs
  let entry : MeasurementMessagePostgres :=
    { Time := epochTime, DBName := msg.DBName, Metric := msg.MetricName
      Data := pr.fields, TagData := pr.tags }
  let acc :=
    { acc with
      perMetric := aupdate acc.perMetric msg.MetricName
        (((alookup acc.perMetric msg.MetricName).getD []) ++ [entry])
      rowsBatched := acc.rowsBatched + 1 }
  match schema with
  | .timescale =>
    { acc with pgPartBounds := updBounds acc.pgPartBounds msg.MetricName epochTime }
  | .postgres =>
    { acc with
      pgPartBoundsDbName := aupdate acc.pgPartBoundsDbName msg.MetricName
        (updBounds ((alookup acc.pgPartBoundsDbName msg.MetricName).getD [])
          msg.DBName epochTime) }

/-- One data row of the batching pass (`totalRows++` happens before the
field scan, source line 199). -/
def phase1Row (schema : DbStorageSchemaType) (now : GoTime)
    (msg : MeasurementMessage) (acc : Phase1Out)
    (row : List (String × GoValue)) : Except String Phase1Out :=
  let acc1 := { acc with totalRows := acc.totalRows + 1 }
  match parseDataRow msg.CustomTags row with
  | .error e => .error e
  | .ok pr => .ok (phase1RowOk schema now msg acc1 pr)

/-- All data rows of one message. -/
def phase1Rows (schema : DbStorageSchemaType) (now : GoTime)
    (msg : MeasurementMessage) :
    Phase1Out → List (List (String × GoValue)) → Except String Phase1Out
  | acc, [] => .ok acc
  | acc, row :: rest =>
    match phase1Row schema now msg acc row with
    | .error e => .error e
    | .ok acc' => phase1Rows schema now msg acc' rest

/-- The message loop of the batching pass; a message with nil/empty
`Data` is skipped whole (source lines 187-189). -/
def phase1Msgs (schema : DbStorageSchemaType) (now : GoTime) :
    Phase1Out → List MeasurementMessage → Except String Phase1Out
  | acc, [] => .ok acc
  | acc, msg :: rest =>
    match (if msg.Data.isEmpty then Except.ok acc
           else phase1Rows schema now msg acc msg.Data) with
    | .error e => .error e
    | .ok acc' => phase1Msgs schema now acc' rest

/-- The batching pass of `write` (source lines 179-273). -/
def phase1 (schema : DbStorageSchemaType) (now : GoTime)
    (msgs : List MeasurementMessage) : Except String Phase1Out :=
  phase1Msgs schema now ⟨[], [], [], 0, 0⟩ msgs

/-- Store call or channel operation performed by the flush path, in
program order. -/
inductive WriteEffect
  | ensureDbnameTimeCall (metric dbname : String) (ts : GoTime)
  | ensureTimeCall (metric : String) (ts : GoTime)
  | ensureTimescaleCall (metric : String)
  | sendLastError (e : String)
  | copyCall (table : String) (time : GoTime) (dbname : String)
      (data : String) (tagData : Option String)
  deriving DecidableEq

/-- Oracles for the database round-trips and JSON marshalling performed
by the flush path.  `none`/`.ok` is success; `some e`/`.error e` is the
error the call would return. -/
structure DbOracle where
  ensureDbnameTime : String → String → GoTime → Except String ExistingPartitionInfo
  ensureTimeFull : String → GoTime → Except String ExistingPartitionInfo
  ensureTimeEnd : String → GoTime → Except String GoTime
  ensureTimescale : String → Option String
  marshalData : List (String × GoValue) → Option String
  marshalTags : List (String × String) → Option String
  copyFrom : String → GoTime → String → String → Option String → Option String

/-- Error message of the zero-bound usage check (source lines 379-380
and 432-433; the `%v`-rendering of the bounds struct is abstracted). -/
def zeroBoundsMsg (metric : String) : String :=
  "zero StartTime/EndTime in partitioning request: " ++ metric

/-- Second conditional call of `EnsureMetricDbnameTime` (source lines
445-453).  Note the store procedure is re-queried with `pb.StartTime`,
not `pb.EndTime`. -/
def ensureDbnameSecond (o : DbOracle) (force : Bool) (metric dbname : String)
    (pb partInfo : ExistingPartitionInfo)
    (cacheM : List (String × ExistingPartitionInfo)) (fx : List WriteEffect) :
    List WriteEffect × List (String × ExistingPartitionInfo) × Option String :=
  if decide (partInfo.EndTime < pb.EndTime) ∨ decide (pb.EndTime = partInfo.EndTime) ∨ force then
    match o.ensureDbnameTime metric dbname pb.StartTime with
    | .error e =>
      (fx ++ [WriteEffect.ensureDbnameTimeCall metric dbname pb.StartTime], cacheM, some e)
    | .ok pi =>
      (fx ++ [WriteEffect.ensureDbnameTimeCall metric dbname pb.StartTime],
       aupdate cacheM dbname pi, none)
  else (fx, cacheM, none)

/-- Body of the per-(metric, dbname) loop of `EnsureMetricDbnameTime`
(source lines 431-453). -/
def ensureDbnameEntry (o : DbOracle) (force : Bool) (metric dbname : String)
    (pb : ExistingPartitionInfo)
    (cacheM : List (String × ExistingPartitionInfo)) :
    List WriteEffect × List (String × ExistingPartitionInfo) × Option String :=
  if timeIsZero pb.StartTime ∨ timeIsZero pb.EndTime then
    ([], cacheM, some (zeroBoundsMsg metric))
  else
    let cached := alookup cacheM dbname
    let partInfo := cached.getD zeroPartInfo
    if (!cached.isSome) ∨ decide (pb.StartTime < partInfo.StartTime) ∨ force then
      match o.ensureDbnameTime metric dbname pb.StartTime with
      | .error e =>
        ([WriteEffect.ensureDbnameTimeCall metric dbname pb.StartTime], cacheM, some e)
      | .ok pi =>
        ensureDbnameSecond o force metric dbname pb pi (aupdate cacheM dbname pi)
          [WriteEffect.ensureDbnameTimeCall metric dbname pb.StartTime]
    else ensureDbnameSecond o force metric dbname pb partInfo cacheM []

/-- Inner (per-dbname) loop of `EnsureMetricDbnameTime`; an error aborts
the whole traversal, keeping the cache updates made so far. -/
def ensureDbnameInner (o : DbOracle) (force : Bool) (metric : String) :
    List (String × ExistingPartitionInfo) →
    List (String × ExistingPartitionInfo) →
    List WriteEffect × List (String × ExistingPartitionInfo) × Option String
  | [], cacheM => ([], cacheM, none)
  | (dbname, pb) :: rest, cacheM =>
    let r := ensureDbnameEntry o force metric dbname pb cacheM
    match r.2.2 with
    | some e => (r.1, r.2.1, some e)
    | none =>
      let r2 := ensureDbnameInner o force metric rest r.2.1
      (r.1 ++ r2.1, r2.2.1, r2.2.2)

/-- Source method `EnsureMetricDbnameTime` (lines 422-457), acting on
the `partitionMapMetricDbname` cache. -/
def EnsureMetricDbnameTime (o : DbOracle) (force : Bool) :
    List (String × List (String × ExistingPartitionInfo)) →
    List (String × List (String × ExistingPartitionInfo)) →
    List WriteEffect × List (String × List (String × ExistingPartitionInfo)) × Option String
  | [], cache2 => ([], cache2, none)
  | (metric, entries) :: rest, cache2 =>
    let r := ensureDbnameInner o force metric entries ((alookup cache2 metric).getD [])
    match r.2.2 with
    | some e => (r.1, aupdate cache2 metric r.2.1, some e)
    | none =>
      let r2 := EnsureMetricDbnameTime o force rest (aupdate cache2 metric r.2.1)
      (r.1 ++ r2.1, r2.2.1, r2.2.2)

/-- Second conditional call of `EnsureMetricTime` (source lines 392-399):
queried with `pb.EndTime`, scanned into the `EndTime` field only. -/
def ensureTimeSecond (o : DbOracle) (force : Bool) (metric : String)
    (pb partInfo : ExistingPartitionInfo)
    (cache : List (String × ExistingPartitionInfo)) (fx : List WriteEffect) :
    List WriteEffect × List (String × ExistingPartitionInfo) × Option String :=
  if decide (partInfo.EndTime < pb.EndTime) ∨ force then
    match o.ensureTimeEnd metric pb.EndTime with
    | .error e => (fx ++ [WriteEffect.ensureTimeCall metric pb.EndTime], cache, some e)
    | .ok t =>
      (fx ++ [WriteEffect.ensureTimeCall metric pb.EndTime],
       aupdate cache metric { partInfo with EndTime := t }, none)
  else (fx, cache, none)

/-- Body of the per-metric loop of `EnsureMetricTime` (source lines
375-400): non-`_realtime` metrics are skipped; zero bounds are usage
errors raised before any store call for the entry. -/
def ensureTimeEntry (o : DbOracle) (force : Bool) (metric : String)
    (pb : ExistingPartitionInfo)
    (cache : List (String × ExistingPartitionInfo)) :
    List WriteEffect × List (String × ExistingPartitionInfo) × Option String :=
  if !(metric.endsWith realtimeSuffix) then ([], cache, none)
  else if timeIsZero pb.StartTime ∨ timeIsZero pb.EndTime then
    ([], cache, some (zeroBoundsMsg metric))
  else
    let cached := alookup cache metric
    let partInfo := cached.getD zeroPartInfo
    if (!cached.isSome) ∨ decide (pb.StartTime < partInfo.StartTime) ∨ force then
      match o.ensureTimeFull metric pb.StartTime with
      | .error e => ([WriteEffect.ensureTimeCall metric pb.StartTime], cache, some e)
      | .ok pi =>
        ensureTimeSecond o force metric pb pi (aupdate cache metric pi)
          [WriteEffect.ensureTimeCall metric pb.StartTime]
    else ensureTimeSecond o force metric pb partInfo cache []

/-- Source method `EnsureMetricTime` (lines 372-402), acting on the
`partitionMapMetric` cache. -/
def EnsureMetricTime (o : DbOracle) (force : Bool) :
    List (String × ExistingPartitionInfo) →
    List (String × ExistingPartitionInfo) →
    List WriteEffect × List (String × ExistingPartitionInfo) × Option String
  | [], cache => ([], cache, none)
  | (metric, pb) :: rest, cache =>
    let r := ensureTimeEntry o force metric pb cache
    match r.2.2 with
    | some e => (r.1, r.2.1, some e)
    | none =>
      let r2 := EnsureMetricTime o force rest r.2.1
      (r.1 ++ r2.1, r2.2.1, r2.2.2)

/-- First loop of `EnsureMetricTimescale` (source lines 407-418):
creates a hypertable once per non-`_realtime` metric not in the cache. -/
def ensureTimescaleLoop (o : DbOracle) :
    List (String × ExistingPartitionInfo) →
    List (String × ExistingPartitionInfo) →
    List WriteEffect × List (String × ExistingPartitionInfo) × Option String
  | [], cache => ([], cache, none)
  | (metric, _) :: rest, cache =>
    if metric.endsWith realtimeSuffix then ensureTimescaleLoop o rest cache
    else
      match alookup cache metric with
      | some _ => ensureTimescaleLoop o rest cache
      | none =>
        match o.ensureTimescale metric with
        | some e => ([WriteEffect.ensureTimescaleCall metric], cache, some e)
        | none =>
          let r := ensureTimescaleLoop o rest (aupdate cache metric zeroPartInfo)
          (WriteEffect.ensureTimescaleCall metric :: r.1, r.2.1, r.2.2)

/-- Source method `EnsureMetricTimescale` (lines 404-420). -/
def EnsureMetricTimescale (o : DbOracle) (force : Bool)
    (bounds cache : List (String × ExistingPartitionInfo)) :
    List WriteEffect × List (String × ExistingPartitionInfo) × Option String :=
  let r := ensureTimescaleLoop o bounds cache
  match r.2.2 with
  | some e => (r.1, r.2.1, some e)
  | none =>
    let r2 := EnsureMetricTime o force bounds r.2.1
    (r.1 ++ r2.1, r2.2.1, r2.2.2)

/-- The `sinks` package-level mutable state used by the flush path:
the force flag, the two partition caches and the two counters
(`datastoreWriteFailuresCounter`, `totalMetricsDroppedCounter`). -/
structure WriteState where
  forceRecreate : Bool
  partMapMetric : List (String × ExistingPartitionInfo)
  partMapMetricDbname : List (String × List (String × ExistingPartitionInfo))
  datastoreWriteFailures : Nat
  totalMetricsDropped : Nat
  deriving DecidableEq

/-- Fresh writer state: empty caches, cleared flag, zero counters. -/
def initialWriteState : WriteState := ⟨false, [], [], 0, 0⟩

/-- Source closure `getTagData` (lines 313-324): `nil` tag column when
the tag map is empty or when tag marshalling fails; a tag marshalling
failure also increments the write-failure counter (second component). -/
def getTagData (o : DbOracle) (tags : List (String × String)) : Option String × Nat :=
  if tags.isEmpty then (none, 0)
  else
    match o.marshalTags tags with
    | none => (none, 1)
    | some s => (some s, 0)

/-- One iteration of the copy loop (source lines 304-336).  A payload
marshalling failure drops the row (counter bump, no copy).  A copy error
increments the write-failure counter and ASSIGNS the force flag to
whether this error's message contains `"no partition"`. -/
def copyRowStep (o : DbOracle) (metric : String) (st : WriteState)
    (m : MeasurementMessagePostgres) : WriteState × List WriteEffect :=
  match o.marshalData m.Data with
  | none => ({ st with totalMetricsDropped := st.totalMetricsDropped + 1 }, [])
  | some js =>
    let tagVal := (getTagData o m.TagData).1
    let st1 := { st with
      datastoreWriteFailures := st.datastoreWriteFailures + (getTagData o m.TagData).2 }
    match o.copyFrom metric m.Time m.DBName js tagVal with
    | some e =>
      ({ st1 with
          datastoreWriteFailures := st1.datastoreWriteFailures + 1
          forceRecreate := strContains e noPartitionNeedle },
       [WriteEffect.copyCall metric m.Time m.DBName js tagVal])
    | none => (st1, [WriteEffect.copyCall metric m.Time m.DBName js tagVal])

/-- The copy loop over one metric's batched rows. -/
def copyRows (o : DbOracle) (metric : String) :
    WriteState → List MeasurementMessagePostgres → WriteState × List WriteEffect
  | st, [] => (st, [])
  | st, m :: rest =>
    let r := copyRowStep o metric st m
    let r2 := copyRows o metric r.1 rest
    (r2.1, r.2 ++ r2.2)

/-- The copy phase over all metrics of a flush (source lines 294-337). -/
def copyAll (o : DbOracle) :
    WriteState → List (String × List MeasurementMessagePostgres) →
    WriteState × List WriteEffect
  | st, [] => (st, [])
  | st, (metric, ms) :: rest =>
    let r := copyRows o metric st ms
    let r2 := copyAll o r.1 rest
    (r2.1, r.2 ++ r2.2)

/-- The partition-ensure step of a flush (source lines 275-281),
dispatched on the sticky schema type and passed the current force flag. -/
def ensureStep (o : DbOracle) (schema : DbStorageSchemaType) (st : WriteState)
    (p : Phase1Out) : List WriteEffect × WriteState × Option String :=
  match schema with
  | .postgres =>
    let r := EnsureMetricDbnameTime o st.forceRecreate p.pgPartBoundsDbName st.partMapMetricDbname
    (r.1, { st with partMapMetricDbname := r.2.1 }, r.2.2)
  | .timescale =>
    let r := EnsureMetricTimescale o st.forceRecreate p.pgPartBounds st.partMapMetric
    (r.1, { st with partMapMetric := r.2.1 }, r.2.2)

/-- Source lines 282-284: the force flag is cleared right after the
ensure step, before any copy begins. -/
def clearForce (st : WriteState) : WriteState :=
  if st.forceRecreate then { st with forceRecreate := false } else st

/-- State entering the copy phase (source lines 282-288): flag cleared;
if the ensure step failed the write-failure counter is incremented. -/
def flushPreCopyState (o : DbOracle) (schema : DbStorageSchemaType)
    (st : WriteState) (p : Phase1Out) : WriteState :=
  let st2 := clearForce (ensureStep o schema st p).2.1
  match (ensureStep o schema st p).2.2 with
  | some _ => { st2 with datastoreWriteFailures := st2.datastoreWriteFailures + 1 }
  | none => st2

/-- Channel send performed when the (function-scoped) `err` variable is
non-nil: once right after the ensure step (line 287) and once at the end
of the flush (line 353).  The copy loop assigns a SHADOWED `err`
(declared by `:=` at line 306), so the outer `err` tested at lines 285
and 340 is exactly the ensure step's error. -/
def flushErrFx (o : DbOracle) (schema : DbStorageSchemaType)
    (st : WriteState) (p : Phase1Out) : List WriteEffect :=
  match (ensureStep o schema st p).2.2 with
  | some e => [WriteEffect.sendLastError e]
  | none => []

/-- Result of one flush: final package state, effect trace in program
order, and the two row counters of the log line. -/
structure FlushOut where
  state : WriteState
  effects : List WriteEffect
  rowsBatched : Nat
  totalRows : Nat
  deriving DecidableEq

/-- Source method `write` (lines 173-354): batching pass, ensure step,
flag clearing, error surfacing, copy phase.  `.error` is the panic of
the unchecked `epoch_ns` type assertion. -/
def write (o : DbOracle) (schema : DbStorageSchemaType) (now : GoTime)
    (st : WriteState) (msgs : List MeasurementMessage) : Except String FlushOut :=
  if msgs.isEmpty then .ok ⟨st, [], 0, 0⟩
  else
    match phase1 schema now msgs with
    | .error e => .error e
    | .ok p =>
      .ok ⟨(copyAll o (flushPreCopyState o schema st p) p.perMetric).1,
           (ensureStep o schema st p).1 ++ flushErrFx o schema st p ++
             (copyAll o (flushPreCopyState o schema st p) p.perMetric).2 ++
             flushErrFx o schema st p,
           p.rowsBatched, p.totalRows⟩

/-- Go channel state: buffer capacity, items currently buffered and
receivers currently blocked on the channel. -/
structure GoChan where
  capacity : Nat
  buffered : Nat
  waitingReceivers : Nat
  deriving DecidableEq

/-- Go channel semantics: `ch <- v` suspends the sender iff the buffer
is full and no receiver is waiting.  For a capacity-0 channel the buffer
is always full, so the send suspends whenever no receiver waits. -/
def sendWouldBlock (c : GoChan) : Bool :=
  decide (c.waitingReceivers = 0) && decide (c.capacity ≤ c.buffered)

/-- Capacity of `lastError := make(chan error)` (source line 31): an
unbuffered channel. -/
def lastErrorChanCapacity : Nat := 0

/-- Source method `Write` (lines 126-142): on a cancelled context it
returns nil immediately, enqueueing nothing and not polling the
last-error channel.  Otherwise the batch is enqueued if the bounded
input channel has room (dropped after the 5 s deadline otherwise, which
the embedding folds into the capacity test), and any pending last error
is returned. -/
def Write (ctxErr : Bool) (input : List (List MeasurementMessage))
    (pending : Option String) (msgs : List MeasurementMessage) :
    Option String × List (List MeasurementMessage) :=
  if ctxErr then (none, input)
  else
    let input' := if input.length < cacheLimit then input ++ [msgs] else input
    (pending, input')

/-- Source method `ReadMetricSchemaType` (lines 79-87): the schema-type
field defaults to `postgres`, is upgraded to `timescale` only when the
settings query succeeds and says so, and the scan error (including
`ErrNoRows` for a missing row) is RETURNED to the caller. -/
def ReadMetricSchemaType (scanRes : Except String Bool) :
    DbStorageSchemaType × Option String :=
  match scanRes with
  | .ok isTs => (if isTs then .timescale else .postgres, none)
  | .error e => (.postgres, some e)

/-- Outcomes of the three fallible steps of `NewPostgresWriter`:
connection bootstrap, the schema-type scan, the dummy-table seeding. -/
structure WriterInit where
  connectRes : Option String
  schemaScan : Except String Bool
  dummiesRes : Option String

/-- Source constructor `NewPostgresWriter` (lines 25-47): any error from
`InitAndTestMetricStoreConnection`, `ReadMetricSchemaType` or
`EnsureBuiltinMetricDummies` aborts construction; otherwise the writer
is created with the probed schema type, which nothing else ever writes. -/
def NewPostgresWriter (i : WriterInit) : Except String DbStorageSchemaType :=
  match i.connectRes with
  | some e => .error e
  | none =>
    match (ReadMetricSchemaType i.schemaScan).2 with
    | some e => .error e
    | none =>
      match i.dummiesRes with
      | some e => .error e
      | none => .ok (ReadMetricSchemaType i.schemaScan).1

/-- The script loop of `executeSchemaScripts` (bootstrap.go lines
125-130): scripts run in order; the first failure is returned and stops
the sequence.  Returns the scripts actually attempted and the error. -/
def runScripts (execO : String → Option String) :
    List String → List String × Option String
  | [] => ([], none)
  | s :: rest =>
    match execO s with
    | some e => ([s], some e)
    | none =>
      let r := runScripts execO rest
      (s :: r.1, r.2)

/-- Source function `executeSchemaScripts` (bootstrap.go lines 118-131):
if the catalog lookup errors, that error is returned with no script run;
if the schema exists, success with no script run; otherwise the ordered
script sequence executes with first-failure abort. -/
def executeSchemaScripts (existsQ : Except String Bool)
    (execO : String → Option String) (sqls : List String) :
    List String × Option String :=
  match existsQ with
  | .error e => ([], some e)
  | .ok true => ([], none)
  | .ok false => runScripts execO sqls

/-- Success test for the embedded fallible computations. -/
def exOk {α : Type} : Except String α → Bool
  | .ok _ => true
  | .error _ => false

/-- Effect trace of a flush result (empty on panic). -/
def flushEffects (r : Except String FlushOut) : List WriteEffect :=
  match r with
  | .ok out => out.effects
  | .error _ => []

/-- Final package state of a flush result (fresh state on panic). -/
def flushFinalState (r : Except String FlushOut) : WriteState :=
  match r with
  | .ok out => out.state
  | .error _ => initialWriteState

/-- `rowsBatched` of a flush result. -/
def flushRows (r : Except String FlushOut) : Nat :=
  match r with
  | .ok out => out.rowsBatched
  | .error _ => 0

/-- Number of `MeasurementMessagePostgres` entries batched by the
batching pass. -/
def phase1EntryCount (r : Except String Phase1Out) : Nat :=
  match r with
  | .ok p => (p.perMetric.map (fun q => q.2.length)).sum
  | .error _ => 0

/-- JSON rendering of an empty Go map. -/
def jsonEmptyObj : String := "\x7b\x7d"

/-- Happy-path oracle: every store call succeeds; marshalling renders
the empty object; ensure calls answer with a one-hour partition starting
at the requested timestamp. -/
def okOracle : DbOracle where
  ensureDbnameTime := fun _ _ t => .ok ⟨t, t + 3600000000000⟩
  ensureTimeFull := fun _ t => .ok ⟨t, t + 3600000000000⟩
  ensureTimeEnd := fun _ t => .ok (t + 3600000000000)
  ensureTimescale := fun _ => none
  marshalData := fun _ => some jsonEmptyObj
  marshalTags := fun _ => some jsonEmptyObj
  copyFrom := fun _ _ _ _ _ => none

/-- Oracle whose payload marshalling always fails. -/
def badDataOracle : DbOracle := { okOracle with marshalData := fun _ => none }

/-- Oracle whose tag marshalling always fails. -/
def badTagOracle : DbOracle := { okOracle with marshalTags := fun _ => none }

/-- A batched row with one tag, used as concrete input. -/
def c8row : MeasurementMessagePostgres := ⟨7, ("d"), ("m"), [], [(("h"), ("x"))]⟩

/-- Script oracle failing exactly on script `"b"`. -/
def c9ExecO : String → Option String :=
  fun x => if x = ("b") then some ("boom") else none

/-- Oracle whose partition-ensure store procedure always fails. -/
def ensureFailOracle : DbOracle :=
  { okOracle with ensureDbnameTime := fun _ _ _ => .error ("boom") }

/-- One-message batch: metric `m1`, tenant `a`, one row with only an
`epoch_ns` of 1000. -/
def c2msgs : List MeasurementMessage :=
  [⟨("a"), ("m1"), [], [[(epochColumnName, GoValue.vint 1000)]]⟩]

/-- Batching-pass output for `c2msgs` in plain mode. -/
def c2phase : Phase1Out :=
  ⟨[(("m1"), [⟨1000, ("a"), ("m1"), [], []⟩])], [],
   [(("m1"), [(("a"), ⟨1000, 1000⟩)])], 1, 1⟩

/-- Oracle whose copy calls fail for tenant `a` with a partition-missing
message and for every other tenant with an unrelated message. -/
def c1Oracle : DbOracle :=
  { okOracle with
    copyFrom := fun _ _ dbname _ _ =>
      if dbname = ("a") then some ("ERROR: no partition of relation found for row")
      else some ("timeout") }

/-- Oracle whose copy calls always fail with a partition-missing message. -/
def npOracle : DbOracle :=
  { okOracle with
    copyFrom := fun _ _ _ _ _ => some ("ERROR: no partition of relation found for row") }

/-- Two-message batch on one metric: tenants `a` then `b`. -/
def c1msgs : List MeasurementMessage :=
  [⟨("a"), ("m1"), [], [[(epochColumnName, GoValue.vint 1000)]]⟩,
   ⟨("b"), ("m1"), [], [[(epochColumnName, GoValue.vint 2000)]]⟩]

/-- One message whose single row has only null/empty-valued fields. -/
def c3msg : MeasurementMessage :=
  ⟨("db1"), ("m1"), [], [[(("x"), GoValue.vnull), (("y"), GoValue.vstr (""))]]⟩

/-- How one copy outcome rewrites the force flag (source line 331):
a failing copy ASSIGNS the flag from its own message; a successful copy
leaves it alone. -/
def forceUpd (acc : Bool) (r : Option String) : Bool :=
  match r with
  | some e => strContains e noPartitionNeedle
  | none => acc

/-- Force flag after a sequence of copy outcomes. -/
def forceAfter (init : Bool) (outs : List (Option String)) : Bool :=
  outs.foldl forceUpd init

/-- Copy outcome of one batched row: `none` when the payload fails to
marshal (no copy attempted), otherwise the result of the copy call. -/
def rowCopyOutcome (o : DbOracle) (metric : String)
    (m : MeasurementMessagePostgres) : Option (Option String) :=
  match o.marshalData m.Data with
  | none => none
  | some js => some (o.copyFrom metric m.Time m.DBName js (getTagData o m.TagData).1)

/-- Copy outcomes of a whole flush, in copy order. -/
def flushCopyOutcomes (o : DbOracle) :
    List (String × List MeasurementMessagePostgres) → List (Option String)
  | [] => []
  | (metric, ms) :: rest =>
    ms.filterMap (rowCopyOutcome o metric) ++ flushCopyOutcomes o rest

theorem forceAfter_append (init : Bool) (a b : List (Option String)) :
    forceAfter init (a ++ b) = forceAfter (forceAfter init a) b := by
  simp [forceAfter, List.foldl_append]

theorem forceAfter_all_none :
    ∀ (l : List (Option String)) (init : Bool),
    (∀ x ∈ l, x = none) → forceAfter init l = init := by
  intro l
  induction l with
  | nil => intro init _; rfl
  | cons x rest ih =>
    intro init h
    have hx := h x (by simp)
    subst hx
    simp only [forceAfter, List.foldl_cons]
    exact ih init (fun y hy => h y (by simp [hy]))

theorem copyRowStep_force (o : DbOracle) (metric : String) (st : WriteState)
    (m : MeasurementMessagePostgres) :
    ((copyRowStep o metric st m).1).forceRecreate =
      forceAfter st.forceRecreate (rowCopyOutcome o metric m).toList := by
  cases hmd : o.marshalData m.Data with
  | none => simp [copyRowStep, rowCopyOutcome, hmd, forceAfter]
  | some js =>
    cases hcp : o.copyFrom metric m.Time m.DBName js (getTagData o m.TagData).1 with
    | none => simp [copyRowStep, rowCopyOutcome, hmd, hcp, forceAfter, forceUpd]
    | some e => simp [copyRowStep, rowCopyOutcome, hmd, hcp, forceAfter, forceUpd]

theorem copyRows_force (o : DbOracle) (metric : String) :
    ∀ (ms : List MeasurementMessagePostgres) (st : WriteState),
    ((copyRows o metric st ms).1).forceRecreate =
      forceAfter st.forceRecreate (ms.filterMap (rowCopyOutcome o metric)) := by
  intro ms
  induction ms with
  | nil => intro st; rfl
  | cons m rest ih =>
    intro st
    have hstep := copyRowStep_force o metric st m
    simp only [copyRows, List.filterMap_cons]
    rw [ih, hstep]
    cases hout : rowCopyOutcome o metric m with
    | none => simp [hout, forceAfter]
    | some r => simp [hout, forceAfter]

theorem copyAll_force (o : DbOracle) :
    ∀ (l : List (String × List MeasurementMessagePostgres)) (st : WriteState),
    ((copyAll o st l).1).forceRecreate =
      forceAfter st.forceRecreate (flushCopyOutcomes o l) := by
  intro l
  induction l with
  | nil => intro st; rfl
  | cons p rest ih =>
    intro st
    obtain ⟨metric, ms⟩ := p
    simp only [copyAll, flushCopyOutcomes]
    rw [ih, copyRows_force, forceAfter_append]

theorem copyRowStep_failures_le (o : DbOracle) (metric : String)
    (st : WriteState) (m : MeasurementMessagePostgres) :
    st.datastoreWriteFailures ≤ ((copyRowStep o metric st m).1).datastoreWriteFailures := by
  cases hmd : o.marshalData m.Data with
  | none => simp [copyRowStep, hmd]
  | some js =>
    cases hcp : o.copyFrom metric m.Time m.DBName js (getTagData o m.TagData).1 with
    | none =>
      simp only [copyRowStep, hmd, hcp]
      omega
    | some e =>
      simp only [copyRowStep, hmd, hcp]
      omega

theorem copyRows_failures_le (o : DbOracle) (metric : String) :
    ∀ (ms : List MeasurementMessagePostgres) (st : WriteState),
    st.datastoreWriteFailures ≤ ((copyRows o metric st ms).1).datastoreWriteFailures := by
  intro ms
  induction ms with
  | nil => intro st; exact Nat.le_refl _
  | cons m rest ih =>
    intro st
    exact Nat.le_trans (copyRowStep_failures_le o metric st m) (ih _)

theorem copyAll_failures_le (o : DbOracle) :
    ∀ (l : List (String × List MeasurementMessagePostgres)) (st : WriteState),
    st.datastoreWriteFailures ≤ ((copyAll o st l).1).datastoreWriteFailures := by
  intro l
  induction l with
  | nil => intro st; exact Nat.le_refl _
  | cons p rest ih =>
    intro st
    obtain ⟨metric, ms⟩ := p
    exact Nat.le_trans (copyRows_failures_le o metric ms st) (ih _)

theorem ensureStep_failures (o : DbOracle) (schema : DbStorageSchemaType)
    (st : WriteState) (p : Phase1Out) :
    ((ensureStep o schema st p).2.1).datastoreWriteFailures = st.datastoreWriteFailures := by
  cases schema <;> rfl

theorem clearForce_force (st : WriteState) : (clearForce st).forceRecreate = false := by
  cases h : st.forceRecreate <;> simp [clearForce, h]

theorem clearForce_failures (st : WriteState) :
    (clearForce st).datastoreWriteFailures = st.datastoreWriteFailures := by
  cases h : st.forceRecreate <;> simp [clearForce, h]

theorem flushPreCopyState_force (o : DbOracle) (schema : DbStorageSchemaType)
    (st : WriteState) (p : Phase1Out) :
    (flushPreCopyState o schema st p).forceRecreate = false := by
  cases h : (ensureStep o schema st p).2.2 <;>
    simp [flushPreCopyState, h, clearForce_force]

theorem flushPreCopyState_failures_err (o : DbOracle) (schema : DbStorageSchemaType)
    (st : WriteState) (p : Phase1Out) (e : String)
    (h : (ensureStep o schema st p).2.2 = some e) :
    (flushPreCopyState o schema st p).datastoreWriteFailures =
      st.datastoreWriteFailures + 1 := by
  simp [flushPreCopyState, h, clearForce_failures, ensureStep_failures]

theorem parseFields_skip :
    ∀ (row : List (String × GoValue)) (acc : ParsedRow),
    (∀ kv ∈ row, kv.2 = GoValue.vnull ∨ kv.2 = GoValue.vstr ("")) →
    parseFields row acc = .ok acc := by
  intro row
  induction row with
  | nil => intro acc _; rfl
  | cons kv rest ih =>
    intro acc h
    obtain ⟨k, v⟩ := kv
    have hv := h (k, v) (by simp)
    simp only at hv
    simp only [parseFields, if_pos hv]
    exact ih acc (fun y hy => h y (by simp [hy]))

theorem runScripts_all_ok (execO : String → Option String) :
    ∀ sqls : List String, (∀ x ∈ sqls, execO x = none) →
    runScripts execO sqls = (sqls, none) := by
  intro sqls
  induction sqls with
  | nil => intro _; rfl
  | cons s rest ih =>
    intro h
    have hs := h s (by simp)
    simp only [runScripts, hs, ih (fun y hy => h y (by simp [hy]))]

theorem runScripts_first_fail (execO : String → Option String) (s e : String)
    (hs : execO s = some e) :
    ∀ (pre post : List String), (∀ x ∈ pre, execO x = none) →
    runScripts execO (pre ++ s :: post) = (pre ++ [s], some e) := by
  intro pre
  induction pre with
  | nil =>
    intro post _
    simp only [List.nil_append, runScripts, hs]
  | cons q rest ih =>
    intro post h
    have hq := h q (by simp)
    have ih' := ih post (fun y hy => h y (by simp [hy]))
    simp only [List.cons_append, runScripts, hq]
    rw [show runScripts execO (rest.append (s :: post)) = (rest ++ [s], some e) from ih']

/-- C7: a `Write` call made while the writer's context is already
cancelled returns nil immediately; nothing is enqueued on the input
channel and the last-error channel is not polled (source lines 127-129). -/
theorem C7_write_on_cancelled_context (input : List (List MeasurementMessage))
    (pending : Option String) (msgs : List MeasurementMessage) :
    Write true input pending msgs = (none, input) := rfl

/-- C10: a present, non-nil, non-empty `epoch_ns` value that is not an
`int64` reaches the unchecked type assertion `v.(int64)` (source line
212); the error branch of the total embedding of the row scan is
reachable for such a row — a string value makes the whole write pass
fail — while an `int64` value parses fine. -/
theorem C10_epoch_assertion_reachable :
    exOk (parseDataRow [] [(epochColumnName, GoValue.vstr ("not-an-int"))]) = false ∧
    exOk (parseDataRow [] [(epochColumnName, GoValue.vint 5)]) = true ∧
    exOk (write okOracle DbStorageSchemaType.postgres 1000 initialWriteState
      [⟨("db1"), ("m1"), [], [[(epochColumnName, GoValue.vstr ("not-an-int"))]]⟩]) = false :=
  ⟨rfl, rfl, rfl⟩

/-- C4 counterexample: when the settings-table scan fails (query error
or missing row), `ReadMetricSchemaType` does leave the schema-type field
at `postgres`, but it RETURNS the error, and `NewPostgresWriter`
propagates it (source lines 36-39): writer construction fails rather
than succeeding as the claim states. -/
theorem C4_counterexample :
    ReadMetricSchemaType (.error ("no rows in result set")) =
      (DbStorageSchemaType.postgres, some ("no rows in result set")) ∧
    NewPostgresWriter ⟨none, .error ("no rows in result set"), none⟩ =
      .error ("no rows in result set") :=
  ⟨rfl, rfl⟩

/-- C4 (amended): on a failed or row-less settings scan the probe
defaults the schema type to `postgres` but returns the error, and writer
construction FAILS with that error; when the scan succeeds construction
succeeds and fixes the decision (`timescale` iff the row says so) for
the writer's lifetime — nothing after `NewPostgresWriter` writes the
field. -/
theorem C4_amended (e : String) (dums : Option String) (isTs : Bool) :
    ReadMetricSchemaType (.error e) = (DbStorageSchemaType.postgres, some e) ∧
    NewPostgresWriter ⟨none, .error e, dums⟩ = .error e ∧
    NewPostgresWriter ⟨none, .ok isTs, none⟩ =
      .ok (if isTs then DbStorageSchemaType.timescale else DbStorageSchemaType.postgres) := by
  refine ⟨rfl, rfl, ?_⟩
  cases isTs <;> rfl

/-- C5: in `EnsureMetricDbnameTime`, when the incoming end reaches or
exceeds the cached end (the cache entry as it stands at the check, i.e.
after any first-branch refresh), or when force is set, the store
procedure is invoked again — and this second invocation passes
`pb.StartTime`, not `pb.EndTime` (source line 446) — and the cache entry
is replaced by the returned bounds. -/
theorem C5_end_branch_requeries_start
    (o : DbOracle) (metric dbname : String) (pb : ExistingPartitionInfo)
    (cacheM : List (String × ExistingPartitionInfo)) (pi pi0 : ExistingPartitionInfo)
    (hs : timeIsZero pb.StartTime = false) (he : timeIsZero pb.EndTime = false)
    (horacle : o.ensureDbnameTime metric dbname pb.StartTime = .ok pi) :
    ensureDbnameEntry o true metric dbname pb cacheM =
      ([WriteEffect.ensureDbnameTimeCall metric dbname pb.StartTime,
        WriteEffect.ensureDbnameTimeCall metric dbname pb.StartTime],
       aupdate (aupdate cacheM dbname pi) dbname pi, none) ∧
    (alookup cacheM dbname = some pi0 →
     decide (pb.StartTime < pi0.StartTime) = false →
     (pi0.EndTime < pb.EndTime ∨ pb.EndTime = pi0.EndTime) →
     ensureDbnameEntry o false metric dbname pb cacheM =
       ([WriteEffect.ensureDbnameTimeCall metric dbname pb.StartTime],
        aupdate cacheM dbname pi, none)) := by
  constructor
  · simp [ensureDbnameEntry, hs, he, horacle, ensureDbnameSecond]
  · intro h1 h2 h3
    have h2' : ¬ (pb.StartTime < pi0.StartTime) := by
      simpa using h2
    rcases h3 with h3 | h3
    · simp [ensureDbnameEntry, hs, he, h1, h2', horacle, ensureDbnameSecond, h3]
    · have hc : decide (pb.EndTime = pi0.EndTime) = true := by simp [h3]
      simp [ensureDbnameEntry, hs, he, h1, h2', horacle, ensureDbnameSecond, hc]

/-- C5 witness: concrete run of both branches; the second store call
goes out with timestamp 10 (the incoming start), not 20 (the end). -/
theorem C5_end_branch_requeries_start_witness :
    ensureDbnameEntry okOracle true ("m") ("d") ⟨10, 20⟩ [(("d"), ⟨5, 15⟩)] =
      ([WriteEffect.ensureDbnameTimeCall ("m") ("d") 10,
        WriteEffect.ensureDbnameTimeCall ("m") ("d") 10],
       [(("d"), (⟨10, 3600000000010⟩ : ExistingPartitionInfo))], none) ∧
    ensureDbnameEntry okOracle false ("m") ("d") ⟨10, 20⟩ [(("d"), ⟨5, 15⟩)] =
      ([WriteEffect.ensureDbnameTimeCall ("m") ("d") 10],
       [(("d"), (⟨10, 3600000000010⟩ : ExistingPartitionInfo))], none) := by
  have h := C5_end_branch_requeries_start okOracle ("m") ("d") ⟨10, 20⟩
    [(("d"), ⟨5, 15⟩)] ⟨10, 3600000000010⟩ ⟨5, 15⟩ (by decide) (by decide) rfl
  exact ⟨h.1, h.2 rfl (by decide) (Or.inl (by decide))⟩

/-- C8: per-row encoding failures in the copy loop.  A payload
marshalling failure drops exactly that row — no copy call, drop counter
plus one, and the loop continues with the remaining rows from the bumped
state.  A tag marshalling failure (payload fine, tags non-empty)
increments the write-failure counter and the row is still copied with a
null `tag_data` column. -/
theorem C8_per_row_encoding_failures
    (o : DbOracle) (metric : String) (st : WriteState)
    (m : MeasurementMessagePostgres) (rest : List MeasurementMessagePostgres)
    (js : String) :
    (o.marshalData m.Data = none →
      copyRowStep o metric st m =
        ({ st with totalMetricsDropped := st.totalMetricsDropped + 1 }, []) ∧
      copyRows o metric st (m :: rest) =
        copyRows o metric { st with totalMetricsDropped := st.totalMetricsDropped + 1 } rest) ∧
    (o.marshalData m.Data = some js → m.TagData.isEmpty = false →
      o.marshalTags m.TagData = none →
      o.copyFrom metric m.Time m.DBName js none = none →
      copyRowStep o metric st m =
        ({ st with datastoreWriteFailures := st.datastoreWriteFailures + 1 },
         [WriteEffect.copyCall metric m.Time m.DBName js none])) := by
  constructor
  · intro hmd
    have hstep : copyRowStep o metric st m =
        ({ st with totalMetricsDropped := st.totalMetricsDropped + 1 }, []) := by
      simp [copyRowStep, hmd]
    refine ⟨hstep, ?_⟩
    simp [copyRows, hstep]
  · intro hmd htags hmt hcp
    have hg : getTagData o m.TagData = (none, 1) := by
      simp [getTagData, htags, hmt]
    simp [copyRowStep, hmd, hg, hcp]

/-- C8 witness: a payload-marshal-failing oracle drops the row with a
counter bump; a tag-marshal-failing oracle copies the row with a null
tag column and bumps the write-failure counter. -/
theorem C8_per_row_encoding_failures_witness :
    (copyRowStep badDataOracle ("m") initialWriteState c8row =
      ({ initialWriteState with totalMetricsDropped := 1 }, []) ∧
     copyRows badDataOracle ("m") initialWriteState [c8row] =
      copyRows badDataOracle ("m") { initialWriteState with totalMetricsDropped := 1 } []) ∧
    copyRowStep badTagOracle ("m") initialWriteState c8row =
      ({ initialWriteState with datastoreWriteFailures := 1 },
       [WriteEffect.copyCall ("m") 7 ("d") jsonEmptyObj none]) :=
  ⟨(C8_per_row_encoding_failures badDataOracle ("m") initialWriteState c8row [] jsonEmptyObj).1 rfl,
   (C8_per_row_encoding_failures badTagOracle ("m") initialWriteState c8row [] jsonEmptyObj).2
     rfl rfl rfl rfl⟩

/-- C9: schema bootstrap.  If the catalog lookup finds the schema,
`executeSchemaScripts` runs zero scripts and returns success (re-running
bootstrap on a bootstrapped database is a no-op).  If the schema is
absent, the fixed ordered sequence runs; with no failures all scripts
run, and the first failing script aborts the remaining ones and its
error is returned. -/
theorem C9_schema_bootstrap
    (execO : String → Option String) (sqls pre post : List String) (s e : String)
    (hall : ∀ x ∈ sqls, execO x = none)
    (hpre : ∀ x ∈ pre, execO x = none) (hs : execO s = some e) :
    executeSchemaScripts (.ok true) execO sqls = ([], none) ∧
    executeSchemaScripts (.ok false) execO sqls = (sqls, none) ∧
    executeSchemaScripts (.ok false) execO (pre ++ s :: post) = (pre ++ [s], some e) := by
  refine ⟨rfl, ?_, ?_⟩
  · exact runScripts_all_ok execO sqls hall
  · exact runScripts_first_fail execO s e hs pre post hpre

/-- C9 witness: schema present → no script runs; absent → ordered run;
the failure on the second script stops the third. -/
theorem C9_schema_bootstrap_witness :
    executeSchemaScripts (.ok true) c9ExecO [("a"), ("c")] = ([], none) ∧
    executeSchemaScripts (.ok false) c9ExecO [("a"), ("c")] = ([("a"), ("c")], none) ∧
    executeSchemaScripts (.ok false) c9ExecO ([("a")] ++ ("b") :: [("c")]) =
      ([("a")] ++ [("b")], some ("boom")) :=
  C9_schema_bootstrap c9ExecO [("a"), ("c")] [("a")] [("c")] ("b") ("boom")
    (by decide) (by decide) (by decide)

theorem write_not_empty (o : DbOracle) (schema : DbStorageSchemaType) (now : GoTime)
    (st : WriteState) (msgs : List MeasurementMessage) (p : Phase1Out)
    (hne : msgs.isEmpty = false) (hp : phase1 schema now msgs = .ok p) :
    write o schema now st msgs =
      .ok ⟨(copyAll o (flushPreCopyState o schema st p) p.perMetric).1,
           (ensureStep o schema st p).1 ++ flushErrFx o schema st p ++
             (copyAll o (flushPreCopyState o schema st p) p.perMetric).2 ++
             flushErrFx o schema st p,
           p.rowsBatched, p.totalRows⟩ := by
  simp [write, hne, hp]

/-- C3 counterexample: a row whose fields are all null or empty-string
valued is NOT elided — the batching pass still produces a
`MeasurementMessagePostgres` entry for it (with empty payload) and the
copy phase issues a copy call for it (source lines 231-244 append the
entry unconditionally; only whole messages with empty `Data` are
skipped, lines 187-189). -/
theorem C3_counterexample :
    parseDataRow [] [(("x"), GoValue.vnull), (("y"), GoValue.vstr (""))] =
      .ok ⟨0, [], []⟩ ∧
    phase1EntryCount (phase1 DbStorageSchemaType.postgres 1000 [c3msg]) = 1 ∧
    flushRows (write okOracle DbStorageSchemaType.postgres 1000 initialWriteState [c3msg]) = 1 ∧
    WriteEffect.copyCall ("m1") 1000 ("db1") jsonEmptyObj none ∈
      flushEffects (write okOracle DbStorageSchemaType.postgres 1000 initialWriteState [c3msg]) := by
  refine ⟨rfl, rfl, rfl, ?_⟩
  decide

/-- C3 (amended): for every row all of whose field values are null or
the empty string, every FIELD is dropped from the payload (the parse
yields an empty field map and no tags beyond custom ones), but the ROW
itself is still stored: it yields an entry with empty `Data`, is counted
in `rowsBatched`, and a copy call with the empty JSON object as `data`
is issued for it. -/
theorem C3_amended_row_still_stored (row : List (String × GoValue))
    (h : ∀ kv ∈ row, kv.2 = GoValue.vnull ∨ kv.2 = GoValue.vstr ("")) :
    parseDataRow [] row = .ok ⟨0, [], []⟩ ∧
    flushRows (write okOracle DbStorageSchemaType.postgres 1000 initialWriteState
      [⟨("db1"), ("m1"), [], [row]⟩]) = 1 ∧
    WriteEffect.copyCall ("m1") 1000 ("db1") jsonEmptyObj none ∈
      flushEffects (write okOracle DbStorageSchemaType.postgres 1000 initialWriteState
        [⟨("db1"), ("m1"), [], [row]⟩]) := by
  have hrow : parseDataRow [] row = .ok ⟨0, [], []⟩ := parseFields_skip row _ h
  have hph : phase1 DbStorageSchemaType.postgres 1000 [⟨("db1"), ("m1"), [], [row]⟩] =
      .ok ⟨[(("m1"), [⟨1000, ("db1"), ("m1"), [], []⟩])], [],
           [(("m1"), [(("db1"), ⟨1000, 1000⟩)])], 1, 1⟩ := by
    simp [phase1, phase1Msgs, phase1Rows, phase1Row, hrow, phase1RowOk, updBounds,
      alookup, aupdate]
  have hw := write_not_empty okOracle DbStorageSchemaType.postgres 1000 initialWriteState
    [⟨("db1"), ("m1"), [], [row]⟩] _ rfl hph
  refine ⟨hrow, ?_, ?_⟩
  · rw [hw]
    decide
  · rw [hw]
    decide

/-- C3 witness: concrete all-null row. -/
theorem C3_amended_row_still_stored_witness :
    parseDataRow [] [(("x"), GoValue.vnull)] = .ok ⟨0, [], []⟩ ∧
    flushRows (write okOracle DbStorageSchemaType.postgres 1000 initialWriteState
      [⟨("db1"), ("m1"), [], [[(("x"), GoValue.vnull)]]⟩]) = 1 ∧
    WriteEffect.copyCall ("m1") 1000 ("db1") jsonEmptyObj none ∈
      flushEffects (write okOracle DbStorageSchemaType.postgres 1000 initialWriteState
        [⟨("db1"), ("m1"), [], [[(("x"), GoValue.vnull)]]⟩]) :=
  C3_amended_row_still_stored [(("x"), GoValue.vnull)] (by decide)

/-- C2 counterexample: the ensure error IS surfaced on the last-error
channel, but the claim's non-blocking/lossy reading is false: the
channel is created with `make(chan error)` — capacity 0 — and line 287
is a plain (blocking) send, so whenever no `Write` caller is currently
polling, the send suspends the batcher instead of dropping the error
and moving on. -/
theorem C2_counterexample :
    WriteEffect.sendLastError ("boom") ∈ flushEffects
      (write ensureFailOracle DbStorageSchemaType.postgres 500 initialWriteState c2msgs) ∧
    ¬ (∀ c : GoChan, c.capacity = lastErrorChanCapacity → sendWouldBlock c = false) := by
  constructor
  · decide
  · intro hcl
    have hc := hcl ⟨lastErrorChanCapacity, 0, 0⟩ rfl
    simp [sendWouldBlock, lastErrorChanCapacity] at hc

/-- C2 (amended): when the ensure step of a flush fails, the
write-failure counter is incremented and the error is surfaced on the
last-error channel — but through a BLOCKING send on the unbuffered
channel: the batcher suspends there until a `Write` call's poll receives
the error (with no waiting receiver, a send on the capacity-0 channel
blocks). -/
theorem C2_amended_blocking_surfacing
    (o : DbOracle) (schema : DbStorageSchemaType) (now : GoTime) (st : WriteState)
    (msgs : List MeasurementMessage) (p : Phase1Out) (e : String)
    (hne : msgs.isEmpty = false) (hp : phase1 schema now msgs = .ok p)
    (herr : (ensureStep o schema st p).2.2 = some e) :
    ∃ out, write o schema now st msgs = .ok out ∧
      WriteEffect.sendLastError e ∈ out.effects ∧
      st.datastoreWriteFailures + 1 ≤ out.state.datastoreWriteFailures ∧
      sendWouldBlock ⟨lastErrorChanCapacity, 0, 0⟩ = true := by
  have hw := write_not_empty o schema now st msgs p hne hp
  have hfx : flushErrFx o schema st p = [WriteEffect.sendLastError e] := by
    simp [flushErrFx, herr]
  refine ⟨_, hw, ?_, ?_, by decide⟩
  · simp [hfx]
  · have h1 := flushPreCopyState_failures_err o schema st p e herr
    have h2 := copyAll_failures_le o p.perMetric (flushPreCopyState o schema st p)
    show st.datastoreWriteFailures + 1 ≤
      ((copyAll o (flushPreCopyState o schema st p) p.perMetric).1).datastoreWriteFailures
    omega

/-- C2 witness: a concrete flush whose ensure step fails with `boom`. -/
theorem C2_amended_blocking_surfacing_witness :
    ∃ out, write ensureFailOracle DbStorageSchemaType.postgres 500 initialWriteState c2msgs =
        .ok out ∧
      WriteEffect.sendLastError ("boom") ∈ out.effects ∧
      initialWriteState.datastoreWriteFailures + 1 ≤ out.state.datastoreWriteFailures ∧
      sendWouldBlock ⟨lastErrorChanCapacity, 0, 0⟩ = true :=
  C2_amended_blocking_surfacing ensureFailOracle DbStorageSchemaType.postgres 500
    initialWriteState c2msgs c2phase ("boom") rfl rfl rfl

/-- C6: zero partition bounds.  In plain mode a zero start or end makes
the per-entry ensure return the usage error with NO store call for that
entry, makes the inner loop and `EnsureMetricDbnameTime` as a whole
fail; in time-series mode the same holds for `_realtime` metrics in
`EnsureMetricTime`; and whenever the ensure step of a flush fails, the
error is surfaced on the last-error channel. -/
theorem C6_zero_partition_bounds
    (o : DbOracle) (force : Bool) (metric dbname : String) (pb : ExistingPartitionInfo)
    (cacheM : List (String × ExistingPartitionInfo))
    (cache2 : List (String × List (String × ExistingPartitionInfo)))
    (rest : List (String × ExistingPartitionInfo))
    (schema : DbStorageSchemaType) (now : GoTime) (st : WriteState)
    (msgs : List MeasurementMessage) (p : Phase1Out) (e : String)
    (hz : timeIsZero pb.StartTime = true ∨ timeIsZero pb.EndTime = true)
    (hne : msgs.isEmpty = false) (hp : phase1 schema now msgs = .ok p)
    (herr : (ensureStep o schema st p).2.2 = some e) :
    ensureDbnameEntry o force metric dbname pb cacheM =
      ([], cacheM, some (zeroBoundsMsg metric)) ∧
    ensureDbnameInner o force metric ((dbname, pb) :: rest) cacheM =
      ([], cacheM, some (zeroBoundsMsg metric)) ∧
    EnsureMetricDbnameTime o force [(metric, [(dbname, pb)])] cache2 =
      ([], aupdate cache2 metric ((alookup cache2 metric).getD []),
       some (zeroBoundsMsg metric)) ∧
    (metric.endsWith realtimeSuffix = true →
      ensureTimeEntry o force metric pb cacheM = ([], cacheM, some (zeroBoundsMsg metric))) ∧
    (∃ out, write o schema now st msgs = .ok out ∧
      WriteEffect.sendLastError e ∈ out.effects) := by
  have h1g : ∀ cm : List (String × ExistingPartitionInfo),
      ensureDbnameEntry o force metric dbname pb cm =
        ([], cm, some (zeroBoundsMsg metric)) := by
    intro cm
    unfold ensureDbnameEntry
    rw [if_pos hz]
  refine ⟨h1g cacheM, ?_, ?_, ?_, ?_⟩
  · simp [ensureDbnameInner, h1g cacheM]
  · simp [EnsureMetricDbnameTime, ensureDbnameInner, h1g]
  · intro hrt
    unfold ensureTimeEntry
    rw [hrt]
    simp only [Bool.not_true, Bool.false_eq_true, if_false]
    rw [if_pos hz]
  · have hw := write_not_empty o schema now st msgs p hne hp
    have hfx : flushErrFx o schema st p = [WriteEffect.sendLastError e] := by
      simp [flushErrFx, herr]
    refine ⟨_, hw, ?_⟩
    simp [hfx]

/-- C6 witness: zero start bound on a `_realtime` metric, and a concrete
failing flush whose error is surfaced. -/
theorem C6_zero_partition_bounds_witness :
    ensureDbnameEntry ensureFailOracle false ("m_realtime") ("d") ⟨goZeroTime, 5⟩ [] =
      ([], [], some (zeroBoundsMsg ("m_realtime"))) ∧
    ensureDbnameInner ensureFailOracle false ("m_realtime") [(("d"), ⟨goZeroTime, 5⟩)] [] =
      ([], [], some (zeroBoundsMsg ("m_realtime"))) ∧
    EnsureMetricDbnameTime ensureFailOracle false
      [(("m_realtime"), [(("d"), ⟨goZeroTime, 5⟩)])] [] =
      ([], aupdate [] ("m_realtime") ((alookup [] ("m_realtime")).getD []),
       some (zeroBoundsMsg ("m_realtime"))) ∧
    (String.endsWith ("m_realtime") realtimeSuffix = true →
      ensureTimeEntry ensureFailOracle false ("m_realtime") ⟨goZeroTime, 5⟩ [] =
        ([], [], some (zeroBoundsMsg ("m_realtime")))) ∧
    (∃ out, write ensureFailOracle DbStorageSchemaType.postgres 500 initialWriteState c2msgs =
        .ok out ∧
      WriteEffect.sendLastError ("boom") ∈ out.effects) :=
  C6_zero_partition_bounds ensureFailOracle false ("m_realtime") ("d") ⟨goZeroTime, 5⟩
    [] [] [] DbStorageSchemaType.postgres 500 initialWriteState c2msgs c2phase ("boom")
    (Or.inl (by decide)) rfl rfl rfl

/-- C1 counterexample: in a flush where the copy for tenant `a` fails
with a partition-missing message and a LATER copy (tenant `b`, same
metric) fails with an unrelated message, the force flag is FALSE at the
end of the flush: line 331 assigns (not ORs) the flag from each failing
copy's message, so the later failure overwrites the earlier `true`. -/
theorem C1_counterexample :
    strContains ("ERROR: no partition of relation found for row") noPartitionNeedle = true ∧
    c1Oracle.copyFrom ("m1") 1000 ("a") jsonEmptyObj none =
      some ("ERROR: no partition of relation found for row") ∧
    WriteEffect.copyCall ("m1") 1000 ("a") jsonEmptyObj none ∈
      flushEffects (write c1Oracle DbStorageSchemaType.postgres 500 initialWriteState c1msgs) ∧
    (flushFinalState
      (write c1Oracle DbStorageSchemaType.postgres 500 initialWriteState c1msgs)).forceRecreate
      = false := by
  refine ⟨by decide, rfl, ?_, ?_⟩
  · decide
  · decide

/-- C1 (amended): the flag is cleared right after the ensure step of
every (non-empty) flush, and at the end of the flush it reflects the
LAST failing copy: if some copy fails with a `no partition` message and
every later copy call of the flush succeeds, the flag is true at the end
of the flush (a later failing copy would overwrite it with its own
message's verdict); the next flush hands the current flag to the
partition manager as `force` — its ensure call trace is exactly that of
`EnsureMetricDbnameTime` invoked with the incoming flag — and the
clearing happens before any copy begins (the final flag never depends on
the incoming flag). -/
theorem C1_amended_force_recreate
    (o : DbOracle) (now : GoTime) (st : WriteState)
    (msgs : List MeasurementMessage) (p : Phase1Out)
    (l1 l2 : List (Option String)) (e : String)
    (hne : msgs.isEmpty = false)
    (hp : phase1 DbStorageSchemaType.postgres now msgs = .ok p)
    (hout : flushCopyOutcomes o p.perMetric = l1 ++ some e :: l2)
    (he : strContains e noPartitionNeedle = true)
    (hl2 : ∀ x ∈ l2, x = none) :
    ∃ out, write o DbStorageSchemaType.postgres now st msgs = .ok out ∧
      out.state.forceRecreate = true ∧
      (∃ fx, out.effects =
        (EnsureMetricDbnameTime o st.forceRecreate p.pgPartBoundsDbName
          st.partMapMetricDbname).1 ++ fx) := by
  have hw := write_not_empty o DbStorageSchemaType.postgres now st msgs p hne hp
  refine ⟨_, hw, ?_, ?_⟩
  · show ((copyAll o (flushPreCopyState o DbStorageSchemaType.postgres st p)
        p.perMetric).1).forceRecreate = true
    rw [copyAll_force, flushPreCopyState_force, hout, forceAfter_append]
    have h2 : forceAfter (forceAfter false l1) (some e :: l2) = forceAfter true l2 := by
      simp [forceAfter, forceUpd, he]
    rw [h2]
    exact forceAfter_all_none l2 true hl2
  · refine ⟨flushErrFx o DbStorageSchemaType.postgres st p ++
      ((copyAll o (flushPreCopyState o DbStorageSchemaType.postgres st p) p.perMetric).2 ++
        flushErrFx o DbStorageSchemaType.postgres st p), ?_⟩
    show (ensureStep o DbStorageSchemaType.postgres st p).1 ++ _ ++ _ ++ _ = _
    simp [List.append_assoc, ensureStep]

/-- C1 witness: single copy, failing with a partition-missing message
and no later copy: the flag ends true and the ensure trace is that of
the incoming flag. -/
theorem C1_amended_force_recreate_witness :
    ∃ out, write npOracle DbStorageSchemaType.postgres 500 initialWriteState c2msgs = .ok out ∧
      out.state.forceRecreate = true ∧
      (∃ fx, out.effects =
        (EnsureMetricDbnameTime npOracle initialWriteState.forceRecreate
          c2phase.pgPartBoundsDbName initialWriteState.partMapMetricDbname).1 ++ fx) :=
  C1_amended_force_recreate npOracle 500 initialWriteState c2msgs c2phase []
    [] ("ERROR: no partition of relation found for row") rfl rfl (by decide) (by decide)
    (by decide)

end Pgwatch3
